import Mathlib

/-!
# Verification of the maib ecommerce SDK core

A shallow embedding, in Lean 4, of the request-validation and
callback-signature-verification engine of the maib ecommerce Python SDK
(`maib_sdk.py` / `maib_api.py` / `maibauth.py`, together with the older
duplicated variants `maibsdk.py` / `maibapi.py`), and proofs of the spec's
claims about it.

Conventions of the embedding:

* Python `dict` values are modelled as association lists with distinct keys;
  `dict.get(k)` is a first-match lookup that also maps an explicit `None`
  value to `none`, matching the pervasive `x = data.get(k); if x is not None`
  idiom of the source.
* Python numbers (`int`/`float`) are modelled as rationals tagged with their
  runtime type; the decimal literals compared against (`0.01`, `1`, `0`)
  are order-faithful as rationals for every comparison the code performs.
* Raising an exception is modelled as returning `Except.error`; the error
  type enumerates the distinct raise sites.
* `hashlib.sha256` and `base64.b64encode` are standard-library collaborators;
  they are embedded by full executable implementations of SHA-256 (FIPS 180-4)
  and RFC 4648 base64 so that nothing about the signature computation is
  stubbed.
-/

/-! ## Bytes, SHA-256 and base64 (the `hashlib`/`base64` collaborators) -/

/-- Truncate to a 32-bit word, the modulus of every SHA-256 operation. -/
def m32 (x : Nat) : Nat := x % 4294967296

/-- 32-bit right rotation. -/
def rotr32 (n x : Nat) : Nat := m32 ((x >>> n) ||| (x <<< (32 - n)))

/-- 32-bit bitwise complement (`x` assumed `< 2^32`). -/
def not32 (x : Nat) : Nat := x ^^^ 4294967295

/-- SHA-256 `Ch` function. -/
def shaCh (x y z : Nat) : Nat := (x &&& y) ^^^ (not32 x &&& z)

/-- SHA-256 `Maj` function. -/
def shaMaj (x y z : Nat) : Nat := (x &&& y) ^^^ (x &&& z) ^^^ (y &&& z)

/-- SHA-256 big sigma 0. -/
def bsig0 (x : Nat) : Nat := rotr32 2 x ^^^ rotr32 13 x ^^^ rotr32 22 x

/-- SHA-256 big sigma 1. -/
def bsig1 (x : Nat) : Nat := rotr32 6 x ^^^ rotr32 11 x ^^^ rotr32 25 x

/-- SHA-256 small sigma 0. -/
def ssig0 (x : Nat) : Nat := rotr32 7 x ^^^ rotr32 18 x ^^^ (x >>> 3)

/-- SHA-256 small sigma 1. -/
def ssig1 (x : Nat) : Nat := rotr32 17 x ^^^ rotr32 19 x ^^^ (x >>> 10)

/-- The 64 SHA-256 round constants (FIPS 180-4 section 4.2.2). -/
def shaK : List Nat :=
  [1116352408, 1899447441, 3049323471, 3921009573, 961987163,
   1508970993, 2453635748, 2870763221, 3624381080, 310598401,
   607225278, 1426881987, 1925078388, 2162078206, 2614888103,
   3248222580, 3835390401, 4022224774, 264347078, 604807628,
   770255983, 1249150122, 1555081692, 1996064986, 2554220882,
   2821834349, 2952996808, 3210313671, 3336571891, 3584528711,
   113926993, 338241895, 666307205, 773529912, 1294757372,
   1396182291, 1695183700, 1986661051, 2177026350, 2456956037,
   2730485921, 2820302411, 3259730800, 3345764771, 3516065817,
   3600352804, 4094571909, 275423344, 430227734, 506948616,
   659060556, 883997877, 958139571, 1322822218, 1537002063,
   1747873779, 1955562222, 2024104815, 2227730452, 2361852424,
   2428436474, 2756734187, 3204031479, 3329325298]

/-- The SHA-256 initial hash value (FIPS 180-4 section 5.3.3). -/
def shaH0 : List Nat :=
  [1779033703, 3144134277, 1013904242, 2773480762,
   1359893119, 2600822924, 528734635, 1541459225]

/-- Group a byte list into big-endian 32-bit words. -/
def bytesToWords : List Nat → List Nat
  | b0 :: b1 :: b2 :: b3 :: rest =>
      (b0 * 16777216 + b1 * 65536 + b2 * 256 + b3) :: bytesToWords rest
  | _ => []

/-- Extend a message schedule by `n` further words (FIPS 180-4 section 6.2.2
step 1). -/
def extendW (w : List Nat) : Nat → List Nat
  | 0 => w
  | n + 1 =>
      let l := w.length
      let wt := m32 (ssig1 (w.getD (l - 2) 0) + w.getD (l - 7) 0 +
        ssig0 (w.getD (l - 15) 0) + w.getD (l - 16) 0)
      extendW (w ++ [wt]) n

/-- One round of the SHA-256 compression function; the state is the working
variable list `[a,b,c,d,e,f,g,h]` and `kw` is the pair of round constant and
scheduled word. -/
def shaRound (st : List Nat) (kw : Nat × Nat) : List Nat :=
  match st with
  | [a, b, c, d, e, f, g, h] =>
      let t1 := m32 (h + bsig1 e + shaCh e f g + kw.1 + kw.2)
      let t2 := m32 (bsig0 a + shaMaj a b c)
      [m32 (t1 + t2), a, b, c, m32 (d + t1), e, f, g]
  | _ => st

/-- Process a single padded 64-byte block, updating the intermediate hash. -/
def shaBlock (hs : List Nat) (block : List Nat) : List Nat :=
  let w := extendW (bytesToWords block) 48
  let st := (shaK.zip w).foldl shaRound hs
  (hs.zip st).map fun p => m32 (p.1 + p.2)

/-- The length field of SHA-256 padding: `n` as eight big-endian bytes. -/
def beBytes8 (n : Nat) : List Nat :=
  [n / 72057594037927936 % 256, n / 281474976710656 % 256,
   n / 1099511627776 % 256, n / 4294967296 % 256,
   n / 16777216 % 256, n / 65536 % 256, n / 256 % 256, n % 256]

/-- A 32-bit word as four big-endian bytes. -/
def beBytes4 (n : Nat) : List Nat :=
  [n / 16777216 % 256, n / 65536 % 256, n / 256 % 256, n % 256]

/-- SHA-256 message padding: a `0x80` byte, zeros to 56 mod 64, then the
bit length as eight big-endian bytes. -/
def shaPad (msg : List Nat) : List Nat :=
  msg ++ [128] ++ List.replicate ((119 - msg.length % 64) % 64) 0 ++
    beBytes8 (msg.length * 8)

/-- Split a byte list into 64-byte blocks (`fuel` bounds the recursion; it is
called with the list length). -/
def chunks64 : Nat → List Nat → List (List Nat)
  | 0, _ => []
  | _, [] => []
  | fuel + 1, l => l.take 64 :: chunks64 fuel (l.drop 64)

/-- The SHA-256 digest of a byte string, as 32 bytes. -/
def sha256Bytes (msg : List Nat) : List Nat :=
  let padded := shaPad msg
  (((chunks64 padded.length padded).foldl shaBlock shaH0).map beBytes4).flatten

/-- The base64 alphabet (RFC 4648). -/
def b64Alphabet : List Char :=
  "ABCDEFGHIJKLMNOPQRSTUVWXYZabcdefghijklmnopqrstuvwxyz0123456789+/".data

/-- The base64 character for a 6-bit value. -/
def b64Char (n : Nat) : Char := b64Alphabet.getD n 'A'

/-- Base64-encode a byte list, three bytes to four characters, `=`-padded. -/
def b64Chars : List Nat → List Char
  | b0 :: b1 :: b2 :: rest =>
      b64Char (b0 / 4) :: b64Char (b0 % 4 * 16 + b1 / 16) ::
      b64Char (b1 % 16 * 4 + b2 / 64) :: b64Char (b2 % 64) :: b64Chars rest
  | [b0, b1] =>
      [b64Char (b0 / 4), b64Char (b0 % 4 * 16 + b1 / 16),
       b64Char (b1 % 16 * 4), '=']
  | [b0] => [b64Char (b0 / 4), b64Char (b0 % 4 * 16), '=', '=']
  | [] => []

/-- `base64.b64encode(...).decode()` on a byte list. -/
def base64Encode (bs : List Nat) : String := String.mk (b64Chars bs)

/-- UTF-8 encoding of one character, as `str.encode()` produces. -/
def utf8Char (c : Char) : List Nat :=
  let n := c.toNat
  if n < 128 then [n]
  else if n < 2048 then [192 + n / 64, 128 + n % 64]
  else if n < 65536 then [224 + n / 4096, 128 + n / 64 % 64, 128 + n % 64]
  else [240 + n / 262144, 128 + n / 4096 % 64, 128 + n / 64 % 64, 128 + n % 64]

/-- UTF-8 encoding of a string (`str.encode()`). -/
def utf8Bytes (s : String) : List Nat := (s.data.map utf8Char).flatten

/-- `base64.b64encode(hashlib.sha256(s.encode()).digest()).decode()`:
the composed digest used by the callback verifier. -/
def b64sha256 (s : String) : String := base64Encode (sha256Bytes (utf8Bytes s))

/-! ## The callback verifier (`maib_sdk.py` lines 95-117 and `maibsdk.py`
lines 77-93)

A callback `result` mapping is a Python dict whose values matter only through
`str(value)` and their `None`-ness, so an entry value is modelled as
`Option String`: `some s` is a non-null value whose string form is `s`,
`none` is `None` (whose string form under `str` is `"None"`).  The dict
itself is an association list with distinct keys. -/

/-- One callback `result` entry: key and value (`none` models Python `None`). -/
abbrev CallbackEntry := String × Option String

/-- `str(value) if value is not None else ''` (`maib_sdk.py` line 110). -/
def stringifyOrEmpty : Option String → String
  | some s => s
  | none => ""

/-- `str(value)` as `maibsdk.py` line 86 applies it: `str(None)` is `"None"`. -/
def stringifyPy : Option String → String
  | some s => s
  | none => "None"

/-- Insert an entry into a list sorted by key (ascending lexicographic). -/
def insertByKey (p : CallbackEntry) : List CallbackEntry → List CallbackEntry
  | [] => [p]
  | q :: qs => if p.1 < q.1 then p :: q :: qs else q :: insertByKey p qs

/-- `sorted(d.items())` for a dict with distinct keys: sort the entries by
key in lexicographic (code-point) order. -/
def sortByKey (l : List CallbackEntry) : List CallbackEntry :=
  l.foldr insertByKey []

/-- The sorted, stringified result mapping (`maib_sdk.py` line 110):
`{key: (str(value) if value is not None else '') for key, value in
sorted(callback_result.items())}`. -/
def sorted_callback_result (result : List CallbackEntry) : List (String × String) :=
  (sortByKey result).map fun kv => (kv.1, stringifyOrEmpty kv.2)

/-- The string signed by the gateway (`maib_sdk.py` lines 111-114): the sorted
stringified values with the signature key appended, joined by `:`. -/
def sign_string (result : List CallbackEntry) (signature_key : String) : String :=
  String.intercalate ":" ((sorted_callback_result result).map Prod.snd ++ [signature_key])

/-- `base64.b64encode(hashlib.sha256(sign_string.encode()).digest()).decode()`
(`maib_sdk.py` line 115). -/
def calculated_signature (result : List CallbackEntry) (signature_key : String) : String :=
  b64sha256 (sign_string result signature_key)

/-- `hmac.compare_digest` on two ASCII strings: constant-time in Python,
observably string equality. -/
def compare_digest (a b : String) : Bool := a == b

/-- The callback payload: the two fields the verifier reads
(`callback_data.get('signature')` / `callback_data.get('result')`). -/
structure CallbackData where
  signature : Option String
  result : Option (List CallbackEntry)

/-- The raise sites of the two callback verifiers.  The first two are the
spec's `MissingSignatureData` (messages `'Invalid signature key'` and
`'Missing result or signature in callback data.'`); the last two belong to
the older `maibsdk.py` variant (its `'Missing callback signature'` raise and
the `KeyError` its unguarded `callback_data['result']` raises). -/
inductive CallbackErr where
  | invalidSignatureKey
  | missingSignatureData
  | missingCallbackSignature
  | keyError
deriving DecidableEq

/-- `MaibSdk.validate_callback_signature` (`maib_sdk.py` lines 95-117). -/
def validate_callback_signature (callback_data : CallbackData)
    (signature_key : String) : Except CallbackErr Bool :=
  if signature_key.isEmpty then .error .invalidSignatureKey
  else
    match callback_data.signature, callback_data.result with
    | some sig, some result =>
        if sig.isEmpty || result.isEmpty then .error .missingSignatureData
        else .ok (compare_digest (calculated_signature result signature_key) sig)
    | _, _ => .error .missingSignatureData

/-- The sign string of the older variant (`maibsdk.py` lines 86-90): same
construction but values are stringified with bare `str`, so a `None` value
contributes `"None"` rather than `""`. -/
def sign_string_MAIBSDK (result : List CallbackEntry) (signature_key : String) : String :=
  String.intercalate ":" (((sortByKey result).map fun kv => stringifyPy kv.2) ++ [signature_key])

/-- `MAIBSDK.validate_callback_signature` (`maibsdk.py` lines 77-93): no
signature-key check, unguarded `callback_data['result']` subscript, bare
`str` value coercion, short-circuiting `==` comparison. -/
def validate_callback_signature_MAIBSDK (callback_data : CallbackData)
    (signature_key : String) : Except CallbackErr Bool :=
  match callback_data.signature with
  | none => .error .missingCallbackSignature
  | some sig =>
      if sig.isEmpty then .error .missingCallbackSignature
      else
        match callback_data.result with
        | none => .error .keyError
        | some result =>
            .ok (b64sha256 (sign_string_MAIBSDK result signature_key) == sig)

/-- The string described by the spec's callback algorithm, written from its
words: result entries sorted by key lexicographically, each value mapped to
its string form with null replaced by the empty string, the values joined
with the secret as one final joined element, separator `:`. -/
def specSignString (result : List CallbackEntry) (secret : String) : String :=
  String.intercalate ":" ((sortByKey result).map (fun kv => stringifyOrEmpty kv.2) ++ [secret])

/-! ## The request validator (`maib_api.py` lines 98-246)

A parameter bag is a Python dict from field name to arbitrary value.  The
validator observes a value only through `isinstance` checks against `str`,
`int`, `float` and `list`, through `len`, numeric comparison, list membership
and nested `dict.get`, so values are modelled by the inductive `PyVal`.
Python numbers are carried as rationals: the decimal bounds the code compares
against (`1`, `0.01`, `0`) and every input relevant to the claims are exact
in `ℚ`, and the comparison order is the numeric order either way. -/

/-- A Python value as the validator observes it. -/
inductive PyVal where
  | pyStr (s : String)
  | pyInt (n : Int)
  | pyFloat (q : ℚ)
  | pyList (l : List PyVal)
  | pyDict (d : List (String × PyVal))
  | pyNone
deriving BEq

/-- A parameter bag: a Python dict, keys distinct. -/
abbrev PyDict := List (String × PyVal)

/-- First-match association lookup. -/
def lookupVal : PyDict → String → Option PyVal
  | [], _ => none
  | (k, v) :: rest, key => if key = k then some v else lookupVal rest key

/-- `data.get(key)` combined with the `is None` test the code always applies
to it: an explicit `None` value behaves exactly like an absent key. -/
def pyGet (d : PyDict) (key : String) : Option PyVal :=
  match lookupVal d key with
  | some .pyNone => none
  | r => r

/-- `isinstance(v, str)`. -/
def isStr : PyVal → Bool
  | .pyStr _ => true
  | _ => false

/-- `isinstance(v, (float, int))`. -/
def isNum : PyVal → Bool
  | .pyInt _ => true
  | .pyFloat _ => true
  | _ => false

/-- `isinstance(v, int)`. -/
def isIntV : PyVal → Bool
  | .pyInt _ => true
  | _ => false

/-- `len(v)` for a string value (only evaluated on strings by the code). -/
def strLen : PyVal → Nat
  | .pyStr s => s.length
  | _ => 0

/-- The string payload of a string value. -/
def strVal : PyVal → String
  | .pyStr s => s
  | _ => ""

/-- The numeric payload of an `int`/`float` value. -/
def numVal : PyVal → ℚ
  | .pyInt n => (n : ℚ)
  | .pyFloat q => q
  | _ => 0

/-- Validation failures of `__validate_pay_params`: the spec's
`MissingParameter(field)` and `InvalidParameter(field)`, plus the
`AttributeError` Python raises if an `items` element is not a dict (so has no
`.get`).  `invalid "okUrl"` / `invalid "failUrl"` correspond to the raises
whose messages spell the fields `'ok_url'` / `'fail_url'`. -/
inductive ValErr where
  | missing (field : String)
  | invalid (field : String)
  | attrError
deriving DecidableEq

/-- The required-parameter loop (`maib_api.py` lines 119-122): the first
parameter whose `data.get` is `None` is reported. -/
def checkRequired (data : PyDict) : List String → Option ValErr
  | [] => none
  | p :: ps =>
      if (pyGet data p).isNone then some (.missing p) else checkRequired data ps

/-- `billerId` rule (lines 125-128): if present, a string of exactly 36
characters. -/
def check_billerId (data : PyDict) : Option ValErr :=
  match pyGet data "billerId" with
  | none => none
  | some v =>
      if isStr v = false ∨ strLen v ≠ 36 then some (.invalid "billerId") else none

/-- `billerExpiry` rule (lines 130-133): if present, a string of exactly 4
characters. -/
def check_billerExpiry (data : PyDict) : Option ValErr :=
  match pyGet data "billerExpiry" with
  | none => none
  | some v =>
      if isStr v = false ∨ strLen v ≠ 4 then some (.invalid "billerExpiry") else none

/-- `payId` rule (lines 135-138): if present, a string of at most 36
characters. -/
def check_payId (data : PyDict) : Option ValErr :=
  match pyGet data "payId" with
  | none => none
  | some v =>
      if isStr v = false ∨ 36 < strLen v then some (.invalid "payId") else none

/-- `confirmAmount` rule (lines 140-143): if present, a number `≥ 0.01`. -/
def check_confirmAmount (data : PyDict) : Option ValErr :=
  match pyGet data "confirmAmount" with
  | none => none
  | some v =>
      if isNum v = false ∨ numVal v < (1 / 100 : ℚ) then
        some (.invalid "confirmAmount")
      else none

/-- `amount` rule (lines 145-148): if present, a number `≥ 1`. -/
def check_amount (data : PyDict) : Option ValErr :=
  match pyGet data "amount" with
  | none => none
  | some v =>
      if isNum v = false ∨ numVal v < 1 then some (.invalid "amount") else none

/-- `refundAmount` rule (lines 150-153): if present, a number `≥ 0.01`. -/
def check_refundAmount (data : PyDict) : Option ValErr :=
  match pyGet data "refundAmount" with
  | none => none
  | some v =>
      if isNum v = false ∨ numVal v < (1 / 100 : ℚ) then
        some (.invalid "refundAmount")
      else none

/-- `currency` rule (lines 155-158): if present, one of `MDL`, `EUR`, `USD`. -/
def check_currency (data : PyDict) : Option ValErr :=
  match pyGet data "currency" with
  | none => none
  | some v =>
      if isStr v = false ∨ strVal v ∉ (["MDL", "EUR", "USD"] : List String) then
        some (.invalid "currency")
      else none

/-- `clientIp` rule (lines 160-164): if present, any string (format left to a
`TODO` in the source). -/
def check_clientIp (data : PyDict) : Option ValErr :=
  match pyGet data "clientIp" with
  | none => none
  | some v => if isStr v = false then some (.invalid "clientIp") else none

/-- `language` rule (lines 166-169): if present, a string of exactly 2
characters. -/
def check_language (data : PyDict) : Option ValErr :=
  match pyGet data "language" with
  | none => none
  | some v =>
      if isStr v = false ∨ strLen v ≠ 2 then some (.invalid "language") else none

/-- `description` rule (lines 171-174): if present, a string of at most 124
characters. -/
def check_description (data : PyDict) : Option ValErr :=
  match pyGet data "description" with
  | none => none
  | some v =>
      if isStr v = false ∨ 124 < strLen v then some (.invalid "description") else none

/-- `clientName` rule (lines 176-179): if present, a string of at most 128
characters. -/
def check_clientName (data : PyDict) : Option ValErr :=
  match pyGet data "clientName" with
  | none => none
  | some v =>
      if isStr v = false ∨ 128 < strLen v then some (.invalid "clientName") else none

/-- `email` rule (lines 181-185): if present, any string (format left to a
`TODO` in the source). -/
def check_email (data : PyDict) : Option ValErr :=
  match pyGet data "email" with
  | none => none
  | some v => if isStr v = false then some (.invalid "email") else none

/-- `phone` rule (lines 187-190): if present, a string of at most 40
characters. -/
def check_phone (data : PyDict) : Option ValErr :=
  match pyGet data "phone" with
  | none => none
  | some v =>
      if isStr v = false ∨ 40 < strLen v then some (.invalid "phone") else none

/-- `orderId` rule (lines 192-195): if present, a string of at most 36
characters. -/
def check_orderId (data : PyDict) : Option ValErr :=
  match pyGet data "orderId" with
  | none => none
  | some v =>
      if isStr v = false ∨ 36 < strLen v then some (.invalid "orderId") else none

/-- `delivery` rule (lines 197-200): if present, a number `≥ 0`. -/
def check_delivery (data : PyDict) : Option ValErr :=
  match pyGet data "delivery" with
  | none => none
  | some v =>
      if isNum v = false ∨ numVal v < 0 then some (.invalid "delivery") else none

/-- The per-element rules of the `items` loop (lines 207-226): `id`, `name`,
`price`, `quantity` in order, each optional but constrained when present; a
non-dict element raises `AttributeError` at its first `.get`. -/
def check_item : PyVal → Option ValErr
  | .pyDict item =>
      (match pyGet item "id" with
       | none => none
       | some v =>
           if isStr v = false ∨ 36 < strLen v then some (.invalid "items[].id")
           else none) <|>
      (match pyGet item "name" with
       | none => none
       | some v =>
           if isStr v = false ∨ 128 < strLen v then some (.invalid "items[].name")
           else none) <|>
      (match pyGet item "price" with
       | none => none
       | some v =>
           if isNum v = false ∨ numVal v < 0 then some (.invalid "items[].price")
           else none) <|>
      (match pyGet item "quantity" with
       | none => none
       | some v =>
           if isIntV v = false ∨ numVal v < 0 then some (.invalid "items[].quantity")
           else none)
  | _ => some .attrError

/-- `for item in items`: the first failing element wins. -/
def check_items_elems : List PyVal → Option ValErr
  | [] => none
  | v :: vs =>
      match check_item v with
      | some e => some e
      | none => check_items_elems vs

/-- `items` rule (lines 202-226): if present, a non-empty list, then each
element checked in order. -/
def check_items (data : PyDict) : Option ValErr :=
  match pyGet data "items" with
  | none => none
  | some v =>
      match v with
      | .pyList l => if l.isEmpty then some (.invalid "items") else check_items_elems l
      | _ => some (.invalid "items")

/-- `callbackUrl` rule (lines 228-232): if present, any string. -/
def check_callbackUrl (data : PyDict) : Option ValErr :=
  match pyGet data "callbackUrl" with
  | none => none
  | some v => if isStr v = false then some (.invalid "callbackUrl") else none

/-- `okUrl` rule (lines 234-238): if present, any string (the source message
spells the field `'ok_url'`). -/
def check_okUrl (data : PyDict) : Option ValErr :=
  match pyGet data "okUrl" with
  | none => none
  | some v => if isStr v = false then some (.invalid "okUrl") else none

/-- `failUrl` rule (lines 240-244): if present, any string (the source message
spells the field `'fail_url'`). -/
def check_failUrl (data : PyDict) : Option ValErr :=
  match pyGet data "failUrl" with
  | none => none
  | some v => if isStr v = false then some (.invalid "failUrl") else none

/-- The per-field rules in exactly the textual order of
`__validate_pay_params` (lines 125-244). -/
def payChecks : List (PyDict → Option ValErr) :=
  [check_billerId, check_billerExpiry, check_payId, check_confirmAmount,
   check_amount, check_refundAmount, check_currency, check_clientIp,
   check_language, check_description, check_clientName, check_email,
   check_phone, check_orderId, check_delivery, check_items,
   check_callbackUrl, check_okUrl, check_failUrl]

/-- Run a list of checks in order; the first raise aborts the run
(each Python `raise` propagates immediately). -/
def runChecks (data : PyDict) : List (PyDict → Option ValErr) → Except ValErr Bool
  | [] => .ok true
  | c :: cs =>
      match c data with
      | some e => .error e
      | none => runChecks data cs

/-- `MaibApi.__validate_pay_params` (`maib_api.py` lines 115-246): the
required loop first, then the per-field rules in source order; returns `True`
when every check passes. -/
def validate_pay_params (data : PyDict) (required_params : List String) :
    Except ValErr Bool :=
  match checkRequired data required_params with
  | some e => .error e
  | none => runChecks data payChecks

/-- `REQUIRED_PAY_PARAMS` (`maib_api.py` line 21). -/
def REQUIRED_PAY_PARAMS : List String := ["amount", "currency", "clientIp"]

/-- A single check applied functionally: what the required loop reports for
one parameter. -/
def requiredCheck (data : PyDict) (p : String) : Option ValErr :=
  if (pyGet data p).isNone then some (.missing p) else none

/-- The first `some` of a list of check outcomes, in order: the reference
"first violated constraint" the short-circuit claim compares against. -/
def firstSome : List (Option ValErr) → Option ValErr
  | [] => none
  | some e :: _ => some e
  | none :: os => firstSome os

/-! ## Entity-id, token and response-envelope handling -/

/-- Failures of `__validate_id_param` (`maib_api.py` lines 105-113):
the `'Missing ID.'` raise and the `'Invalid ID parameter. Should be string of
36 characters.'` raise. -/
inductive IdErr where
  | missingId
  | invalidId
deriving DecidableEq

/-- `MaibApi.__validate_id_param` (`maib_api.py` lines 105-113), identical to
`MAIBAPI.validate_id_param` (`maibapi.py` lines 81-86): `if not entity_id`
first (absent or empty string), then `if len(entity_id) == 0`. -/
def validate_id_param (entity_id : Option String) : Except IdErr Unit :=
  match entity_id with
  | none => .error .missingId
  | some s =>
      if s.isEmpty then .error .missingId
      else if s.length = 0 then .error .invalidId
      else .ok ()

/-- The precondition failure of `MAIBAuth.generate_token`
(`maibauth.py` lines 17-18). -/
inductive TokenErr where
  | missingCredentials
deriving DecidableEq

/-- The request-body construction of `MAIBAuth.generate_token`
(`maibauth.py` lines 16-25): the guard and the `post_data` cases, up to the
point the body is handed to the transport collaborator. -/
def generate_token_post_data (project_id project_secret : Option String) :
    Except TokenErr (List (String × String)) :=
  if project_id = none ∧ project_secret = none then .error .missingCredentials
  else
    match project_id, project_secret with
    | some i, some s => .ok [("projectId", i), ("projectSecret", s)]
    | some i, none => .ok [("refreshToken", i)]
    | _, _ => .ok []

/-- One entry of the envelope's `errors` array; both subfields are read with
`.get`, so both may be absent. -/
structure ErrEntry where
  errorCode : Option String
  errorMessage : Option String
deriving DecidableEq

/-- The response envelope as `handle_response` reads it: `ok` (only the
boolean `True` satisfies the code's `is True` test), `result`, `errors`. -/
structure ResponseEnvelope where
  ok : Option Bool
  result : Option PyVal
  errors : Option (List ErrEntry)

/-- The raise sites of `MaibSdk.handle_response`: the spec's two
`ProtocolError`s, its `GatewayError` (carrying `errorMessage` and `errorCode`
of `errors[0]`), and the `IndexError` that `errors[0]` raises on a present
but empty array. -/
inductive HandleErr where
  | missingResult
  | gateway (errorMessage errorCode : Option String)
  | malformed
  | indexError
deriving DecidableEq

/-- `MaibSdk.handle_response` (`maib_sdk.py` lines 76-93). -/
def handle_response (response : ResponseEnvelope) : Except HandleErr PyVal :=
  match response.ok with
  | some true =>
      match response.result with
      | some res => .ok res
      | none => .error .missingResult
  | _ =>
      match response.errors with
      | some (e :: _) => .error (.gateway e.errorMessage e.errorCode)
      | some [] => .error .indexError
      | none => .error .malformed

/-- `REQUIRED_PAYID_PARAMS` (`maib_api.py` line 22). -/
def REQUIRED_PAYID_PARAMS : List String := ["payId"]

/-- `REQUIRED_SAVE_PARAMS` (`maib_api.py` line 23). -/
def REQUIRED_SAVE_PARAMS : List String := ["billerExpiry", "currency", "clientIp"]

/-- `REQUIRED_EXECUTE_RECURRING_PARAMS` (`maib_api.py` line 24). -/
def REQUIRED_EXECUTE_RECURRING_PARAMS : List String := ["billerId", "amount", "currency"]

/-- `REQUIRED_EXECUTE_ONECLICK_PARAMS` (`maib_api.py` line 25). -/
def REQUIRED_EXECUTE_ONECLICK_PARAMS : List String :=
  ["billerId", "amount", "currency", "clientIp"]

/-! ## Shared lemmas -/

/-- Appending check-outcome lists: the first violation of the whole list is
the first of the prefix, else the first of the suffix. -/
theorem firstSome_append (l₁ l₂ : List (Option ValErr)) :
    firstSome (l₁ ++ l₂) =
      match firstSome l₁ with
      | some e => some e
      | none => firstSome l₂ := by
  induction l₁ with
  | nil => rfl
  | cons o os ih =>
    cases o with
    | some e => rfl
    | none => simpa [firstSome] using ih

/-- The required-parameter loop is the first-violation scan of the
per-parameter presence checks, in list order. -/
theorem checkRequired_eq_firstSome (data : PyDict) (req : List String) :
    checkRequired data req = firstSome (req.map (requiredCheck data)) := by
  induction req with
  | nil => rfl
  | cons p ps ih =>
    by_cases h : (pyGet data p).isNone <;>
      simp [checkRequired, requiredCheck, h, firstSome, ih]

/-- Sequentially-raised checks are the first-violation scan of their
outcomes. -/
theorem runChecks_eq_firstSome (data : PyDict) (cs : List (PyDict → Option ValErr)) :
    runChecks data cs =
      match firstSome (cs.map fun c => c data) with
      | some e => Except.error e
      | none => Except.ok true := by
  induction cs with
  | nil => rfl
  | cons c cs ih =>
    cases hc : c data with
    | some e => simp [runChecks, hc, firstSome]
    | none => simpa [runChecks, hc, firstSome] using ih

/-- Inserting into a sorted list permutes consing. -/
theorem insertByKey_perm (p : CallbackEntry) (l : List CallbackEntry) :
    List.Perm (insertByKey p l) (p :: l) := by
  induction l with
  | nil => exact List.Perm.refl _
  | cons q qs ih =>
    by_cases h : p.1 < q.1
    · simp [insertByKey, h]
    · rw [insertByKey, if_neg h]
      exact (List.Perm.cons q ih).trans (List.Perm.swap p q qs)

/-- Sorting by key permutes the entry list. -/
theorem sortByKey_perm (l : List CallbackEntry) : List.Perm (sortByKey l) l := by
  induction l with
  | nil => exact List.Perm.refl _
  | cons p ps ih =>
    exact (insertByKey_perm p (sortByKey ps)).trans (List.Perm.cons p ih)

/-- Sorting by key preserves membership. -/
theorem mem_sortByKey {kv : CallbackEntry} {l : List CallbackEntry} :
    kv ∈ sortByKey l ↔ kv ∈ l :=
  (sortByKey_perm l).mem_iff

/-- The sign string the code builds through its intermediate sorted dict
equals the string described directly by the spec's algorithm. -/
theorem sign_string_eq_spec (r : List CallbackEntry) (k : String) :
    sign_string r k = specSignString r k := by
  simp [sign_string, sorted_callback_result, specSignString, List.map_map]
  rfl

/-- A non-empty string is not `isEmpty`. -/
theorem isEmpty_false_of_ne_empty {s : String} (h : s ≠ "") :
    s.isEmpty = false := by
  rw [← Bool.not_eq_true, String.isEmpty_iff]
  exact h

/-- A non-nil list is not `isEmpty`. -/
theorem list_isEmpty_false_of_ne_nil {α : Type} {l : List α} (h : l ≠ []) :
    l.isEmpty = false := by
  cases l with
  | nil => exact absurd rfl h
  | cons a as => rfl

/-! ## Claim C1: the callback digest formula -/

/-- Claim C1: for every callback notification with a non-empty secret,
non-empty signature and non-empty result mapping (a dict, so with distinct
keys), `validate_callback_signature` returns `True` if and only if the
supplied signature equals the base64 encoding of the SHA-256 digest of the
string obtained by sorting the result entries by key lexicographically,
mapping each value to its string form with null replaced by the empty
string, and joining those values — with the secret as one final joined
element — with the separator `:`. -/
theorem validate_callback_signature_digest_iff (sig secret : String)
    (r : List CallbackEntry) (hsecret : secret ≠ "") (hsig : sig ≠ "")
    (hr : r ≠ []) (hkeys : (r.map Prod.fst).Nodup) :
    validate_callback_signature ⟨some sig, some r⟩ secret = .ok true ↔
      sig = b64sha256 (specSignString r secret) := by
  have hks := isEmpty_false_of_ne_empty hsecret
  have hsg := isEmpty_false_of_ne_empty hsig
  have hre := list_isEmpty_false_of_ne_nil hr
  rw [← sign_string_eq_spec]
  simp [validate_callback_signature, hks, hsg, hre, compare_digest,
    calculated_signature]
  exact eq_comm

/-- Claim C1, witnessed at signature `"x"`, secret `"k"` and the singleton
result mapping `a ↦ "1"`. -/
theorem validate_callback_signature_digest_iff_witness :
    (("k" : String) ≠ "" ∧ ("x" : String) ≠ "" ∧
      ([("a", some "1")] : List CallbackEntry) ≠ [] ∧
      (([("a", some "1")] : List CallbackEntry).map Prod.fst).Nodup) ∧
    (validate_callback_signature ⟨some "x", some [("a", some "1")]⟩ "k" = .ok true ↔
      "x" = b64sha256 (specSignString [("a", some "1")] "k")) :=
  ⟨⟨by decide, by decide, by decide, by decide⟩,
   validate_callback_signature_digest_iff "x" "k" [("a", some "1")]
     (by decide) (by decide) (by decide) (by decide)⟩

/-! ## Claim C2: the two verifier variants are not equivalent -/

/-- Claim C2 counterexample: at the concrete payload
`{signature: "x", result: {a: "1"}}` with the empty secret, the
`maib_sdk.py` verifier raises (`'Invalid signature key'`) while the
`maibsdk.py` verifier returns a boolean — so the two implementations do not
have identical observable behaviour. -/
theorem validate_callback_variants_differ :
    (validate_callback_signature
      ⟨some "x", some [("a", some "1")]⟩ "").isOk = false ∧
    (validate_callback_signature_MAIBSDK
      ⟨some "x", some [("a", some "1")]⟩ "").isOk = true :=
  ⟨rfl, rfl⟩

/-- Claim C2 amended: the two verifiers agree — same boolean, and one raises
exactly when the other does — on the common domain where the secret is
non-empty, the result mapping is present and non-empty, and no result value
is null; outside it they diverge (empty secret and empty/missing result
raise only in `maib_sdk.py`; null values are stringified differently). -/
theorem validate_callback_variants_agree (cd : CallbackData) (k : String)
    (r : List CallbackEntry) (hk : k ≠ "") (hres : cd.result = some r)
    (hrne : r ≠ []) (hvals : ∀ kv ∈ r, kv.2 ≠ (none : Option String)) :
    (validate_callback_signature cd k).toOption =
      (validate_callback_signature_MAIBSDK cd k).toOption := by
  obtain ⟨sig?, res?⟩ := cd
  simp only at hres
  subst hres
  have hke := isEmpty_false_of_ne_empty hk
  have hre := list_isEmpty_false_of_ne_nil hrne
  rcases sig? with _ | s
  · simp [validate_callback_signature, validate_callback_signature_MAIBSDK,
      hke, Except.toOption]
  · by_cases hs : s.isEmpty
    · simp [validate_callback_signature, validate_callback_signature_MAIBSDK,
        hke, hs, Except.toOption]
    · have hse : s.isEmpty = false := by rwa [Bool.not_eq_true] at hs
      have hstrings : sign_string r k = sign_string_MAIBSDK r k := by
        unfold sign_string sign_string_MAIBSDK sorted_callback_result
        rw [List.map_map]
        congr 1
        congr 1
        refine List.map_congr_left fun kv hkv => ?_
        have hmem : kv ∈ r := mem_sortByKey.1 hkv
        have hv := hvals kv hmem
        cases hkv2 : kv.2 with
        | none => exact absurd hkv2 hv
        | some x => simp [stringifyOrEmpty, stringifyPy, hkv2]
      simp [validate_callback_signature, validate_callback_signature_MAIBSDK,
        hke, hse, hre, Except.toOption, compare_digest, calculated_signature,
        hstrings]

/-- Claim C2 amended, witnessed on the payload
`{signature: "x", result: {a: "1"}}` with secret `"k"`. -/
theorem validate_callback_variants_agree_witness :
    (("k" : String) ≠ "" ∧
      (CallbackData.mk (some "x") (some [("a", some "1")])).result =
        some [("a", some "1")] ∧
      ([("a", some "1")] : List CallbackEntry) ≠ [] ∧
      (∀ kv ∈ ([("a", some "1")] : List CallbackEntry),
        kv.2 ≠ (none : Option String))) ∧
    (validate_callback_signature ⟨some "x", some [("a", some "1")]⟩ "k").toOption =
      (validate_callback_signature_MAIBSDK
        ⟨some "x", some [("a", some "1")]⟩ "k").toOption :=
  ⟨⟨by decide, rfl, by decide, by decide⟩,
   validate_callback_variants_agree ⟨some "x", some [("a", some "1")]⟩ "k"
     [("a", some "1")] (by decide) rfl (by decide) (by decide)⟩

/-! ## Claim C3: the verifier raises exactly on missing signature data -/

/-- Claim C3: `validate_callback_signature` raises (its two raise sites are
the spec's `MissingSignatureData`) exactly when the secret, the signature
field or the result field is absent or empty; on every other input it
returns a boolean. -/
theorem validate_callback_signature_error_iff (cd : CallbackData) (k : String) :
    (validate_callback_signature cd k).isOk = false ↔
      (k = "" ∨ cd.signature = none ∨ cd.signature = some "" ∨
        cd.result = none ∨ cd.result = some []) := by
  obtain ⟨sig?, res?⟩ := cd
  by_cases hk : k = ""
  · subst hk
    simp [validate_callback_signature, Except.isOk, Except.toBool,
      String.isEmpty_iff]
  · have hke := isEmpty_false_of_ne_empty hk
    rcases sig? with _ | s
    · simp [validate_callback_signature, hke, Except.isOk, Except.toBool,
        String.isEmpty_iff, hk]
    · rcases res? with _ | r
      · simp [validate_callback_signature, hke, Except.isOk, Except.toBool,
          String.isEmpty_iff, hk]
      · by_cases hs : s = ""
        · subst hs
          simp [validate_callback_signature, hke, Except.isOk, Except.toBool,
            String.isEmpty_iff, hk]
        · have hse := isEmpty_false_of_ne_empty hs
          by_cases hr : r = []
          · subst hr
            simp [validate_callback_signature, hke, hse, Except.isOk,
              Except.toBool, String.isEmpty_iff, hk, hs]
          · have hre := list_isEmpty_false_of_ne_nil hr
            simp [validate_callback_signature, hke, hse, hre, Except.isOk,
              Except.toBool, String.isEmpty_iff, hk, hs, hr]

/-! ## Claim C4: validation reports the first violated constraint -/

/-- Claim C4: for every operation's required set and parameter bag,
`validate_pay_params` short-circuits and reports exactly the first violated
constraint in the fixed order — each required field in listed order (failing
with `MissingParameter` naming the first absent-or-null one), then the
per-field rules in the fixed table order `billerId, billerExpiry, payId,
confirmAmount, amount, refundAmount, currency, clientIp, language,
description, clientName, email, phone, orderId, delivery, items,
callbackUrl, okUrl, failUrl` (the order of `payChecks`), each applied only
when its field is present. -/
theorem validate_pay_params_first_violation (data : PyDict)
    (required_params : List String) :
    validate_pay_params data required_params =
      match firstSome (required_params.map (requiredCheck data) ++
          payChecks.map fun c => c data) with
      | some e => Except.error e
      | none => Except.ok true := by
  unfold validate_pay_params
  rw [checkRequired_eq_firstSome, firstSome_append]
  cases firstSome (required_params.map (requiredCheck data)) with
  | some e => rfl
  | none => exact runChecks_eq_firstSome data payChecks

/-! ## Claim C5: the free-form string fields accept the empty string -/

/-- Claim C5 counterexample: a bag carrying `clientIp` as the empty string
passes validation, where the claim requires it to fail with
`InvalidParameter("clientIp")` — the source checks only
`isinstance(x, str)` for this field. -/
theorem empty_string_clientIp_passes :
    validate_pay_params [("clientIp", .pyStr "")] [] = .ok true := rfl

/-- Claim C5 amended: `clientIp`, `email`, `callbackUrl`, `okUrl` and
`failUrl` are accepted whenever they are strings — the empty string
included — and fail with `InvalidParameter` naming the field for every
present non-string, non-null value (a literal `None` value is read back as
absent by `data.get`, so the field's rule is skipped; format and emptiness
are unchecked). -/
theorem free_form_fields_any_string (f : String)
    (hf : f ∈ ["clientIp", "email", "callbackUrl", "okUrl", "failUrl"]) :
    (∀ s : String, validate_pay_params [(f, .pyStr s)] [] = .ok true) ∧
    (∀ v : PyVal, isStr v = false → v ≠ .pyNone →
      validate_pay_params [(f, v)] [] = .error (.invalid f)) := by
  simp only [List.mem_cons, List.not_mem_nil, or_false] at hf
  rcases hf with rfl | rfl | rfl | rfl | rfl <;>
    refine ⟨fun s => rfl, fun v hv hvn => ?_⟩ <;>
    cases v <;>
    first
      | rfl
      | exact absurd rfl hvn
      | exact absurd hv (by simp [isStr])

/-- Claim C5 amended, witnessed at `clientIp` with the non-string value
`7`. -/
theorem free_form_fields_any_string_witness :
    (("clientIp" : String) ∈
      ["clientIp", "email", "callbackUrl", "okUrl", "failUrl"]) ∧
    (isStr (.pyInt 7) = false ∧ (PyVal.pyInt 7) ≠ .pyNone) ∧
    ((∀ s : String, validate_pay_params [("clientIp", .pyStr s)] [] = .ok true) ∧
      validate_pay_params [("clientIp", .pyInt 7)] [] =
        .error (.invalid "clientIp")) :=
  ⟨by simp,
   ⟨rfl, by simp⟩,
   ⟨(free_form_fields_any_string "clientIp" (by simp)).1,
    (free_form_fields_any_string "clientIp" (by simp)).2 (.pyInt 7) rfl
      (by simp)⟩⟩

/-! ## Claim C6: numeric minimum bounds are strict-failure, inclusive-pass -/

/-- Claim C6: each numeric field with a declared minimum bound (`amount`
min `1`, `confirmAmount`/`refundAmount` min `0.01`, `delivery` min `0`)
fails validation with `InvalidParameter` exactly when the present numeric
value is strictly below the bound, so the bound value itself passes the
field's rule; in particular `amount = 1` passes and `amount = 0.999`
fails. -/
theorem numeric_minimum_bounds (q : ℚ) :
    (validate_pay_params [("amount", .pyFloat q)] [] =
      if q < 1 then .error (.invalid "amount") else .ok true) ∧
    (validate_pay_params [("confirmAmount", .pyFloat q)] [] =
      if q < (1/100 : ℚ) then .error (.invalid "confirmAmount") else .ok true) ∧
    (validate_pay_params [("refundAmount", .pyFloat q)] [] =
      if q < (1/100 : ℚ) then .error (.invalid "refundAmount") else .ok true) ∧
    (validate_pay_params [("delivery", .pyFloat q)] [] =
      if q < 0 then .error (.invalid "delivery") else .ok true) ∧
    validate_pay_params [("amount", .pyInt 1)] [] = .ok true ∧
    validate_pay_params [("amount", .pyFloat (999/1000 : ℚ))] [] =
      .error (.invalid "amount") := by
  have h999 : (999/1000 : ℚ) < 1 := by norm_num
  refine ⟨?_, ?_, ?_, ?_, rfl, ?_⟩
  · by_cases h : q < 1 <;>
    simp [validate_pay_params, checkRequired, runChecks, payChecks,
      check_billerId, check_billerExpiry, check_payId, check_confirmAmount,
      check_amount, check_refundAmount, check_currency, check_clientIp,
      check_language, check_description, check_clientName, check_email,
      check_phone, check_orderId, check_delivery, check_items,
      check_callbackUrl, check_okUrl, check_failUrl, pyGet, lookupVal,
      isNum, numVal, h, -one_div]
  · by_cases h : q < (1/100 : ℚ) <;>
    simp [validate_pay_params, checkRequired, runChecks, payChecks,
      check_billerId, check_billerExpiry, check_payId, check_confirmAmount,
      check_amount, check_refundAmount, check_currency, check_clientIp,
      check_language, check_description, check_clientName, check_email,
      check_phone, check_orderId, check_delivery, check_items,
      check_callbackUrl, check_okUrl, check_failUrl, pyGet, lookupVal,
      isNum, numVal, h, -one_div]
  · by_cases h : q < (1/100 : ℚ) <;>
    simp [validate_pay_params, checkRequired, runChecks, payChecks,
      check_billerId, check_billerExpiry, check_payId, check_confirmAmount,
      check_amount, check_refundAmount, check_currency, check_clientIp,
      check_language, check_description, check_clientName, check_email,
      check_phone, check_orderId, check_delivery, check_items,
      check_callbackUrl, check_okUrl, check_failUrl, pyGet, lookupVal,
      isNum, numVal, h, -one_div]
  · by_cases h : q < 0 <;>
    simp [validate_pay_params, checkRequired, runChecks, payChecks,
      check_billerId, check_billerExpiry, check_payId, check_confirmAmount,
      check_amount, check_refundAmount, check_currency, check_clientIp,
      check_language, check_description, check_clientName, check_email,
      check_phone, check_orderId, check_delivery, check_items,
      check_callbackUrl, check_okUrl, check_failUrl, pyGet, lookupVal,
      isNum, numVal, h, -one_div]
  · simp [validate_pay_params, checkRequired, runChecks, payChecks,
      check_billerId, check_billerExpiry, check_payId, check_confirmAmount,
      check_amount, check_refundAmount, check_currency, check_clientIp,
      check_language, check_description, check_clientName, check_email,
      check_phone, check_orderId, check_delivery, check_items,
      check_callbackUrl, check_okUrl, check_failUrl, pyGet, lookupVal,
      isNum, numVal, h999]

/-! ## Claim C7: the response-envelope handler -/

/-- Claim C7: `handle_response` returns the result object unchanged when
`ok` is `true` and `result` is present; raises `GatewayError` built from
`errors[0]` alone (later entries discarded) when `ok` is not `true` and
`errors` is a non-empty array; raises the missing-result `ProtocolError`
when `ok` is `true` but `result` is absent; and raises the
malformed-envelope `ProtocolError` when neither `result` nor `errors` is
present — the four cases read in the handler's priority order, so the
missing-result case takes precedence over the malformed case when `ok` is
`true`. -/
theorem handle_response_cases (r : ResponseEnvelope) :
    (∀ res, r.ok = some true → r.result = some res → handle_response r = .ok res) ∧
    (∀ e es, r.ok ≠ some true → r.errors = some (e :: es) →
      handle_response r = .error (.gateway e.errorMessage e.errorCode)) ∧
    (r.ok = some true → r.result = none → handle_response r = .error .missingResult) ∧
    (r.ok ≠ some true → r.result = none → r.errors = none →
      handle_response r = .error .malformed) := by
  obtain ⟨ok, res, errs⟩ := r
  refine ⟨?_, ?_, ?_, ?_⟩
  · rintro x h1 h2
    subst h1; subst h2
    rfl
  · rintro e es h1 h2
    subst h2
    match ok with
    | none => rfl
    | some false => rfl
    | some true => exact absurd rfl h1
  · rintro h1 h2
    subst h1; subst h2
    rfl
  · rintro h1 h2 h3
    subst h2; subst h3
    match ok with
    | none => rfl
    | some false => rfl
    | some true => exact absurd rfl h1

/-- Claim C7, witnessed at the four envelope shapes of the spec's
round-trip property. -/
theorem handle_response_cases_witness :
    handle_response ⟨some true, some (.pyStr "bar"), none⟩ = .ok (.pyStr "bar") ∧
    handle_response ⟨some false, none,
        some [⟨some "E1", some "bad"⟩, ⟨some "E2", some "x"⟩]⟩ =
      .error (.gateway (some "bad") (some "E1")) ∧
    handle_response ⟨some true, none, none⟩ = .error .missingResult ∧
    handle_response ⟨none, none, none⟩ = .error .malformed :=
  ⟨(handle_response_cases _).1 _ rfl rfl,
   (handle_response_cases _).2.1 ⟨some "E1", some "bad"⟩ [⟨some "E2", some "x"⟩]
     (by decide) rfl,
   (handle_response_cases _).2.2.1 rfl rfl,
   (handle_response_cases _).2.2.2 (by decide) rfl rfl⟩

/-! ## Claim C8: the `items` rules -/

/-- Claim C8: a present `items` that is the empty list fails with
`InvalidParameter("items")` — not `MissingParameter` — an element whose
`id` is a string longer than 36 characters fails with `InvalidParameter`
on the item id sub-field, and an element with none of the optional
sub-fields passes. -/
theorem items_rules (s : String) (h : 36 < s.length) :
    validate_pay_params [("items", .pyList [])] [] = .error (.invalid "items") ∧
    validate_pay_params [("items", .pyList [.pyDict [("id", .pyStr s)]])] [] =
      .error (.invalid "items[].id") ∧
    validate_pay_params [("items", .pyList [.pyDict []])] [] = .ok true := by
  refine ⟨rfl, ?_, rfl⟩
  simp [validate_pay_params, checkRequired, runChecks, payChecks,
    check_billerId, check_billerExpiry, check_payId, check_confirmAmount,
    check_amount, check_refundAmount, check_currency, check_clientIp,
    check_language, check_description, check_clientName, check_email,
    check_phone, check_orderId, check_delivery, check_items, check_item,
    check_items_elems, check_callbackUrl, check_okUrl, check_failUrl,
    pyGet, lookupVal, isStr, strLen, h]

/-- Claim C8, witnessed at a 37-character id. -/
theorem items_rules_witness :
    (36 < ("xxxxxxxxxxxxxxxxxxxxxxxxxxxxxxxxxxxxx" : String).length) ∧
    (validate_pay_params [("items", .pyList [])] [] = .error (.invalid "items") ∧
     validate_pay_params [("items", .pyList
        [.pyDict [("id", .pyStr "xxxxxxxxxxxxxxxxxxxxxxxxxxxxxxxxxxxxx")]])] [] =
       .error (.invalid "items[].id") ∧
     validate_pay_params [("items", .pyList [.pyDict []])] [] = .ok true) :=
  ⟨by decide, items_rules "xxxxxxxxxxxxxxxxxxxxxxxxxxxxxxxxxxxxx" (by decide)⟩

/-! ## Claim C9: the second id-validation branch is unreachable -/

/-- Claim C9: in `validate_id_param` the second branch (the
`'Invalid ID parameter. Should be string of 36 characters.'` raise) is
unreachable: every entity id either triggers the `'Missing ID.'` raise
(absent or empty) or is returned without error — no 36-character rule is
ever enforced. -/
theorem validate_id_param_invalid_unreachable (entity_id : Option String) :
    validate_id_param entity_id = .error .missingId ∨
      validate_id_param entity_id = .ok () := by
  match entity_id with
  | none => exact Or.inl rfl
  | some s =>
    by_cases h : s.isEmpty
    · exact Or.inl (by simp [validate_id_param, h])
    · have hne : s ≠ "" := fun hs => h (by subst hs; rfl)
      have hlen : s.length ≠ 0 := by
        intro h0
        apply hne
        cases s with
        | mk l =>
          cases l with
          | nil => rfl
          | cons c cs => simp [String.length] at h0
      exact Or.inr (by simp [validate_id_param, h, hlen])

/-! ## Claim C10: the token-generation precondition -/

/-- Claim C10: `generate_token` raises its precondition error exactly when
project id and project secret are both null; a secret-only call passes
validation and sends an empty body, and an id-only call reinterprets the id
as a refresh token. -/
theorem generate_token_post_data_cases :
    generate_token_post_data none none = .error .missingCredentials ∧
    (∀ s, generate_token_post_data none (some s) = .ok []) ∧
    (∀ i, generate_token_post_data (some i) none = .ok [("refreshToken", i)]) ∧
    (∀ i s, generate_token_post_data (some i) (some s) =
      .ok [("projectId", i), ("projectSecret", s)]) := by
  refine ⟨rfl, fun s => ?_, fun i => ?_, fun i s => ?_⟩ <;>
    simp [generate_token_post_data]
